import Mathlib

/-!
# Dashboard view state (src/pages/Dashboard.js)

A shallow embedding of the state held by the `Dashboard` component and of its
handlers.  Each handler is a function from the component state (the values the
handler closes over) and the outcome of the calls it awaits to the state left
by its setters.  A rejected promise is `none`, a fulfilled one `some data`
(`response.data`).
-/

namespace Dashboard

/-! ## Data model -/

/-- An element of a `messages` array.  The arrays hold plain objects: the
handlers write `{ text, type }` literals, the API returns objects that carry
`content`.  A field that is absent (`undefined`) is `none`. -/
structure Message where
  text : Option String
  type : Option String
  content : Option String
deriving DecidableEq, Repr

/-- A conversation object: `id`, and `messages` once it has been given one. -/
structure Conversation where
  id : Int
  messages : Option (List Message)
deriving DecidableEq, Repr

/-- The `useState` cells of the component (Dashboard.js 20-26). -/
structure State where
  showLeftSection : Bool
  conversations : List Conversation
  currentConversation : Option Conversation
  userInput : String
  loadingConversations : Bool
  loadingChat : Bool
  currentDateTime : String
deriving DecidableEq, Repr

/-- The initial values given to `useState`. -/
def init : State where
  showLeftSection := false
  conversations := []
  currentConversation := none
  userInput := ""
  loadingConversations := false
  loadingChat := false
  currentDateTime := ""

/-- The object literal `{ text: userInput, type: 'user' }` (line 96). -/
def userMessage (userInput : String) : Message :=
  ⟨some userInput, some "user", none⟩

/-- The arrow function `msg => ({ text: msg.content, type: 'bot' })` (line 106). -/
def botMessage (msg : Message) : Message :=
  ⟨msg.content, some "bot", none⟩

/-! ## `String.prototype.trim` -/

/-- The code points removed by `trim`: ECMAScript WhiteSpace and LineTerminator. -/
def isWhiteSpace (c : Char) : Bool :=
  decide (c.toNat ∈ [0x9, 0xA, 0xB, 0xC, 0xD, 0x20, 0xA0, 0x1680, 0x2028, 0x2029,
    0x202F, 0x205F, 0x3000, 0xFEFF]) || (decide (0x2000 ≤ c.toNat) && decide (c.toNat ≤ 0x200A))

/-- The characters of `s.trim()`. -/
def trimChars (cs : List Char) : List Char :=
  ((cs.dropWhile isWhiteSpace).reverse.dropWhile isWhiteSpace).reverse

/-- Model of `s.trim()`. -/
def trim (s : String) : String :=
  ⟨trimChars s.data⟩

/-! ## Handlers -/

/-- Model of `getConversations`, run by the mount effect (lines 29-39). -/
def getConversations (s : State) (response : Option (List Conversation)) : State :=
  match response with
  | some data => { s with conversations := data, loadingConversations := false }
  | none => { s with loadingConversations := false }

/-- Model of `toggleSection` (lines 58-60). -/
def toggleSection (s : State) : State :=
  { s with showLeftSection := !s.showLeftSection }

/-- Model of `addConversation` (lines 62-72). -/
def addConversation (s : State) (response : Option Conversation) : State :=
  match response with
  | some newConversation =>
    { s with
      conversations := s.conversations ++ [newConversation]
      currentConversation := some newConversation
      showLeftSection := false }
  | none => s

/-- Model of `setCurrentConversation` (lines 74-85). -/
def setCurrentConversation (s : State) (conversation : Conversation)
    (response : Option (List Message)) : State :=
  match response with
  | some data =>
    { s with
      currentConversation := some { conversation with messages := some data }
      loadingChat := false
      showLeftSection := false }
  | none => { s with loadingChat := false, showLeftSection := false }

/-- Model of `handleInputChange` (lines 87-89). -/
def handleInputChange (s : State) (value : String) : State :=
  { s with userInput := value }

/-- What `handleInputKeyPress` has done when it reaches its `await`, or ends
without reaching it. -/
inductive KeyPress where
  /-- A guard of lines 92-93 was false: no setter ran, nothing was sent. -/
  | skipped
  /-- Spreading `currentConversation.messages` raised a TypeError (line 96),
  before any setter ran. -/
  | threw
  /-- The setters of lines 98-99 ran, leaving `state`, and
  `sendMessage(conversationId, text)` is awaited. -/
  | awaiting (state : State) (updatedConversation : Conversation)
      (conversationId : Int) (text : String)
deriving DecidableEq, Repr

/-- Model of `handleInputKeyPress` up to the `await` of line 102. -/
def handleInputKeyPressStart (s : State) (key : String) : KeyPress :=
  if key = "Enter" ∧ trim s.userInput ≠ "" then
    match s.currentConversation with
    | some currentConversation =>
      match currentConversation.messages with
      | some messages =>
        let updatedConversation : Conversation :=
          { currentConversation with messages := some (messages ++ [userMessage s.userInput]) }
        .awaiting { s with currentConversation := some updatedConversation, userInput := "" }
          updatedConversation currentConversation.id s.userInput
      | none => .threw
    | none => .skipped
  else .skipped

/-- Model of lines 103-110: the continuation of `handleInputKeyPress` once
`sendMessage` has settled, from the state `s` left by the first part. -/
def handleInputKeyPressResume (s : State) (updatedConversation : Conversation)
    (response : Option (List Message)) : State :=
  match response with
  | some botResponse =>
    match updatedConversation.messages with
    | some messages =>
      let conversation : Conversation :=
        { updatedConversation with messages := some (messages ++ botResponse.map botMessage) }
      { s with currentConversation := some conversation }
    | none => s
  | none => s

/-- Model of `handleInputKeyPress` run to completion (lines 91-113). -/
def handleInputKeyPress (s : State) (key : String) (response : Option (List Message)) : State :=
  match handleInputKeyPressStart s key with
  | .skipped => s
  | .threw => s
  | .awaiting s1 updatedConversation _ _ => handleInputKeyPressResume s1 updatedConversation response

/-- The values of `Swal.DismissReason`. -/
inductive DismissReason where
  | cancel | backdrop | close | esc | timer
deriving DecidableEq, Repr

/-- The fields of the result of `Swal.fire` that the component reads. -/
structure SwalResult where
  isConfirmed : Bool
  dismiss : Option DismissReason
deriving DecidableEq, Repr

/-- Model of `confirmDelete` (lines 115-149). -/
def confirmDelete (s : State) (id : Int) (result : SwalResult) (deleted : Option Unit) : State :=
  match s.conversations.find? (fun convo => decide (convo.id = id)) with
  | none => s
  | some _ =>
    if result.isConfirmed then
      match deleted with
      | some _ =>
        let s1 := { s with conversations := s.conversations.filter (fun convo => decide (convo.id ≠ id)) }
        match s.currentConversation with
        | some currentConversation =>
          if currentConversation.id = id then { s1 with currentConversation := none } else s1
        | none => s1
      | none => s
    else s

/-! ## Rendering of the chat pane (lines 212-243) -/

/-- One row produced by the `messages.map` of lines 222-237. -/
inductive Row where
  /-- `msg.type === 'user'`: the bubble showing `msg.text`, and the avatar. -/
  | user (text : Option String)
  /-- `msg.type === 'bot'`: the chatbot picture. -/
  | bot
  /-- Any other `msg.type`: an empty row. -/
  | blank
deriving DecidableEq, Repr

/-- The row rendered for one element of `messages`. -/
def renderMessage (msg : Message) : Row :=
  if msg.type = some "user" then .user msg.text
  else if msg.type = some "bot" then .bot
  else .blank

/-- What the chat pane shows. -/
inductive ChatPane where
  | empty
  | spinner
  | rows (rs : List Row)
deriving DecidableEq, Repr

/-- Model of the chat pane expression; `none` is the TypeError raised by
`currentConversation.messages.map` when `messages` is `undefined`. -/
def renderChat (s : State) : Option ChatPane :=
  match s.currentConversation with
  | none => some .empty
  | some currentConversation =>
    if s.loadingChat then some .spinner
    else
      match currentConversation.messages with
      | some messages => some (.rows (messages.map renderMessage))
      | none => none

/-! ## Runs of the component -/

/-- The operations of the mounted component, each with the outcome of the
calls it awaits: the load started by the mount effect, whose response may
arrive after handlers have run (the `+` of line 158 is rendered while the list
is loading), and the handlers a user can trigger. -/
inductive Action where
  | getConversations (response : Option (List Conversation))
  | toggleSection
  | addConversation (response : Option Conversation)
  | setCurrentConversation (conversation : Conversation) (response : Option (List Message))
  | handleInputChange (value : String)
  | handleInputKeyPress (key : String) (response : Option (List Message))
  | confirmDelete (id : Int) (result : SwalResult) (deleted : Option Unit)
deriving DecidableEq, Repr

/-- The state left by one operation run to completion. -/
def step (s : State) : Action → State
  | .getConversations r => getConversations s r
  | .toggleSection => toggleSection s
  | .addConversation r => addConversation s r
  | .setCurrentConversation c r => setCurrentConversation s c r
  | .handleInputChange v => handleInputChange s v
  | .handleInputKeyPress k r => handleInputKeyPress s k r
  | .confirmDelete id result deleted => confirmDelete s id result deleted

/-- Whether the view offers the action: a conversation is selected by clicking
its entry of the rendered list (line 177). -/
def enabled (s : State) : Action → Bool
  | .setCurrentConversation c _ => decide (c ∈ s.conversations)
  | _ => true

/-- The states of the mounted component: those reached from the initial state
by operations run one at a time. -/
inductive Reachable : State → Prop where
  | init : Reachable init
  | step (s : State) (a : Action) : Reachable s → enabled s a = true → Reachable (step s a)

/-- Whether the action leaves the selection listed when it replaces the list:
true of every action but a load that succeeds while a conversation is selected
and returns a list with no conversation of the selected id. -/
def loadKeepsSelection (s : State) : Action → Bool
  | .getConversations (some data) =>
    match s.currentConversation with
    | none => true
    | some currentConversation => data.any (fun d => decide (d.id = currentConversation.id))
  | _ => true

/-- The states reached from the initial state by operations run one at a time,
every load satisfying `loadKeepsSelection`. -/
inductive ReachableKeepingSelection : State → Prop where
  | init : ReachableKeepingSelection init
  | step (s : State) (a : Action) : ReachableKeepingSelection s → enabled s a = true →
      loadKeepsSelection s a = true → ReachableKeepingSelection (step s a)

/-- The selection is null or carries the id of a listed conversation. -/
def currentInList (s : State) : Prop :=
  match s.currentConversation with
  | none => True
  | some c => ∃ d ∈ s.conversations, d.id = c.id

/-- The selection is null or has a `messages` array. -/
def messagesPopulated (s : State) : Bool :=
  match s.currentConversation with
  | none => true
  | some c => c.messages.isSome

/-! ## Auxiliary facts -/

theorem dropWhile_all_iff (p : Char → Bool) (cs : List Char) :
    (∀ x ∈ cs.dropWhile p, p x = true) ↔ ∀ x ∈ cs, p x = true := by
  constructor
  · intro h x hx
    rw [← List.takeWhile_append_dropWhile p cs] at hx
    rcases List.mem_append.mp hx with hx | hx
    · exact List.mem_takeWhile_imp hx
    · exact h x hx
  · intro h x hx
    exact h x ((List.dropWhile_sublist p).subset hx)

/-- The trimmed form is empty exactly when every character is white space. -/
theorem trim_eq_empty_iff (s : String) :
    trim s = "" ↔ ∀ c ∈ s.data, isWhiteSpace c = true := by
  have h1 : trim s = "" ↔ trimChars s.data = [] := by
    constructor
    · intro h
      have := congrArg String.data h
      simpa [trim] using this
    · intro h
      simp [trim, h]
  rw [h1, trimChars, List.reverse_eq_nil_iff, List.dropWhile_eq_nil_iff]
  simp only [List.mem_reverse]
  exact dropWhile_all_iff isWhiteSpace s.data

theorem find?_isSome_of_mem (cs : List Conversation) (id : Int)
    (h : ∃ c ∈ cs, c.id = id) :
    ∃ c, cs.find? (fun convo => decide (convo.id = id)) = some c := by
  obtain ⟨c, hc, hid⟩ := h
  cases hf : cs.find? (fun convo => decide (convo.id = id)) with
  | some d => exact ⟨d, rfl⟩
  | none =>
    have := List.find?_eq_none.mp hf c hc
    simp [hid] at this

theorem currentInList_getConversations (s : State) (response : Option (List Conversation))
    (hk : loadKeepsSelection s (.getConversations response) = true) (h : currentInList s) :
    currentInList (getConversations s response) := by
  cases response with
  | none => exact h
  | some data =>
    cases hcur : s.currentConversation with
    | none => simp [getConversations, currentInList, hcur]
    | some cur =>
      have hany : data.any (fun d => decide (d.id = cur.id)) = true := by
        simpa [loadKeepsSelection, hcur] using hk
      obtain ⟨d, hd, hid⟩ := List.any_eq_true.mp hany
      simp only [getConversations, currentInList, hcur]
      exact ⟨d, hd, by simpa using hid⟩

theorem currentInList_addConversation (s : State) (response : Option Conversation)
    (h : currentInList s) : currentInList (addConversation s response) := by
  cases response with
  | none => exact h
  | some n => exact ⟨n, by simp [addConversation], rfl⟩

theorem currentInList_setCurrentConversation (s : State) (c : Conversation)
    (response : Option (List Message)) (hc : c ∈ s.conversations) (h : currentInList s) :
    currentInList (setCurrentConversation s c response) := by
  cases response with
  | none => exact h
  | some data => exact ⟨c, hc, rfl⟩

theorem currentInList_handleInputKeyPress (s : State) (key : String)
    (response : Option (List Message)) (h : currentInList s) :
    currentInList (handleInputKeyPress s key response) := by
  unfold handleInputKeyPress handleInputKeyPressStart
  split_ifs with hk
  · cases hcur : s.currentConversation with
    | none => simpa using h
    | some cur =>
      cases hms : cur.messages with
      | none => simpa [hms] using h
      | some ms =>
        have hin : ∃ d ∈ s.conversations, d.id = cur.id := by
          simpa [currentInList, hcur] using h
        cases response with
        | none => simpa [hms, handleInputKeyPressResume, currentInList] using hin
        | some bot => simpa [hms, handleInputKeyPressResume, currentInList] using hin
  · simpa using h

theorem currentInList_confirmDelete (s : State) (id : Int) (result : SwalResult)
    (deleted : Option Unit) (h : currentInList s) :
    currentInList (confirmDelete s id result deleted) := by
  unfold confirmDelete
  cases hf : s.conversations.find? (fun convo => decide (convo.id = id)) with
  | none => simpa using h
  | some found =>
    by_cases hconf : result.isConfirmed = true
    · cases deleted with
      | none => simpa [hconf] using h
      | some u =>
        cases hcur : s.currentConversation with
        | none => simp [hconf, currentInList, hcur]
        | some cur =>
          have hin : ∃ d ∈ s.conversations, d.id = cur.id := by
            simpa [currentInList, hcur] using h
          by_cases hid : cur.id = id
          · simp [hconf, hid, currentInList]
          · obtain ⟨d, hd, hdid⟩ := hin
            simp only [hconf, hid, if_true, if_false, currentInList, hcur]
            exact ⟨d, List.mem_filter.mpr ⟨hd, by simpa [hdid] using hid⟩, hdid⟩
    · simpa [hconf] using h

theorem currentInList_step (s : State) (a : Action) (he : enabled s a = true)
    (hk : loadKeepsSelection s a = true) (h : currentInList s) : currentInList (step s a) := by
  cases a with
  | getConversations r => exact currentInList_getConversations s r hk h
  | toggleSection => exact h
  | addConversation r => exact currentInList_addConversation s r h
  | setCurrentConversation c r =>
    exact currentInList_setCurrentConversation s c r (by simpa [enabled] using he) h
  | handleInputChange v => exact h
  | handleInputKeyPress k r => exact currentInList_handleInputKeyPress s k r h
  | confirmDelete id result deleted => exact currentInList_confirmDelete s id result deleted h

/-! ## Sample states -/

/-- A state with conversations 0, 1 and 2 listed, conversation 2 selected with
one message shown, and the draft `hello`. -/
def sample : State where
  showLeftSection := false
  conversations := [⟨0, none⟩, ⟨1, none⟩, ⟨2, none⟩]
  currentConversation := some ⟨2, some [⟨some "hi", some "bot", none⟩]⟩
  userInput := "hello"
  loadingConversations := false
  loadingChat := false
  currentDateTime := ""

/-! ## Sending a message -/

/-- C1: with a selected conversation whose messages are `ms`, a draft `d` whose
trimmed form is non-empty and a reply `replies` of `sendMessage`, pressing Enter
leaves the selected conversation with the same id and the messages `ms`, then
the user message with text `d`, then one bot message per reply item carrying
its `content`, in the order of the reply. -/
theorem handleInputKeyPress_success (s : State) (cur : Conversation) (ms : List Message)
    (d : String) (replies : List Message)
    (hcur : s.currentConversation = some cur) (hms : cur.messages = some ms)
    (hd : s.userInput = d) (htrim : trim d ≠ "") :
    (handleInputKeyPress s "Enter" (some replies)).currentConversation =
      some ⟨cur.id, some (ms ++ [⟨some d, some "user", none⟩] ++
        replies.map (fun r => ⟨r.content, some "bot", none⟩))⟩ := by
  subst hd
  simp [handleInputKeyPress, handleInputKeyPressStart, handleInputKeyPressResume, hcur, hms,
    htrim, userMessage, botMessage]

theorem handleInputKeyPress_success_witness :
    (handleInputKeyPress sample "Enter" (some [⟨none, none, some "world"⟩])).currentConversation =
      some ⟨2, some ([⟨some "hi", some "bot", none⟩] ++ [⟨some "hello", some "user", none⟩] ++
        [(⟨none, none, some "world"⟩ : Message)].map (fun r => ⟨r.content, some "bot", none⟩))⟩ :=
  handleInputKeyPress_success sample ⟨2, some [⟨some "hi", some "bot", none⟩]⟩
    [⟨some "hi", some "bot", none⟩] "hello" [⟨none, none, some "world"⟩] rfl rfl rfl (by decide)

/-- C6: with a selected conversation whose messages are `ms` and a draft `d`
whose trimmed form is non-empty, pressing Enter reaches the `sendMessage` call
for `d` in a state whose selected conversation has the same id and the messages
`ms` followed by the user message with text `d` (which is the last message),
and whose draft is empty. -/
theorem handleInputKeyPress_optimistic (s : State) (cur : Conversation) (ms : List Message)
    (d : String)
    (hcur : s.currentConversation = some cur) (hms : cur.messages = some ms)
    (hd : s.userInput = d) (htrim : trim d ≠ "") :
    ∃ s1 updated, handleInputKeyPressStart s "Enter" = .awaiting s1 updated cur.id d ∧
      s1.currentConversation = some ⟨cur.id, some (ms ++ [⟨some d, some "user", none⟩])⟩ ∧
      (ms ++ [(⟨some d, some "user", none⟩ : Message)]).getLast? =
        some ⟨some d, some "user", none⟩ ∧
      s1.userInput = "" ∧ s1.conversations = s.conversations := by
  subst hd
  simp [handleInputKeyPressStart, hcur, hms, htrim, userMessage]

theorem handleInputKeyPress_optimistic_witness :
    ∃ s1 updated, handleInputKeyPressStart sample "Enter" = .awaiting s1 updated 2 "hello" ∧
      s1.currentConversation = some ⟨2, some ([⟨some "hi", some "bot", none⟩] ++
        [⟨some "hello", some "user", none⟩])⟩ ∧
      ([(⟨some "hi", some "bot", none⟩ : Message)] ++
        [(⟨some "hello", some "user", none⟩ : Message)]).getLast? =
        some ⟨some "hello", some "user", none⟩ ∧
      s1.userInput = "" ∧ s1.conversations = sample.conversations :=
  handleInputKeyPress_optimistic sample ⟨2, some [⟨some "hi", some "bot", none⟩]⟩
    [⟨some "hi", some "bot", none⟩] "hello" rfl rfl rfl (by decide)

/-- C9: when the key is not Enter, or the trimmed draft is empty, or no
conversation is selected, `handleInputKeyPress` ends before any setter and
before `sendMessage`: the whole state, with `conversations`,
`currentConversation` and `userInput`, is unchanged whatever the API would
have answered. -/
theorem handleInputKeyPress_noop (s : State) (key : String)
    (h : key ≠ "Enter" ∨ trim s.userInput = "" ∨ s.currentConversation = none) :
    handleInputKeyPressStart s key = .skipped ∧
      ∀ response, handleInputKeyPress s key response = s := by
  have hstart : handleInputKeyPressStart s key = .skipped := by
    unfold handleInputKeyPressStart
    rcases h with h | h | h
    · simp [h]
    · simp [h]
    · simp [h]
  exact ⟨hstart, fun response => by simp [handleInputKeyPress, hstart]⟩

theorem handleInputKeyPress_noop_witness :
    handleInputKeyPressStart (handleInputChange sample "  \t ") "Enter" = .skipped ∧
      ∀ response, handleInputKeyPress (handleInputChange sample "  \t ") "Enter" response =
        handleInputChange sample "  \t " :=
  handleInputKeyPress_noop (handleInputChange sample "  \t ") "Enter"
    (Or.inr (Or.inl (by decide)))

/-! ## Creating and selecting a conversation -/

/-- C3: after `addConversation` with a conversation `n` returned by the API,
the list is the former list followed by `n`, so a conversation with the id of
`n` is listed, and `n` is the selected conversation. -/
theorem addConversation_success (s : State) (n : Conversation) :
    (addConversation s (some n)).conversations = s.conversations ++ [n] ∧
      (∃ c ∈ (addConversation s (some n)).conversations, c.id = n.id) ∧
      (addConversation s (some n)).currentConversation = some n := by
  refine ⟨rfl, ⟨n, ?_, rfl⟩, rfl⟩
  simp [addConversation]

/-- C2, evaluated on the list `[{id: 0}]`, the conversation `{id: 0}` and the
fetched messages `[{content: "hi"}]`: the selected conversation has id 0 and
holds the fetched objects themselves, `[{content: "hi"}]`, which is not
`[{text: "hi", type: "bot"}]`, and the chat pane renders an empty row for it. -/
theorem setCurrentConversation_keeps_raw_messages :
    (setCurrentConversation (getConversations init (some [⟨0, none⟩])) ⟨0, none⟩
        (some [⟨none, none, some "hi"⟩])).currentConversation =
      some ⟨0, some [⟨none, none, some "hi"⟩]⟩ ∧
    (setCurrentConversation (getConversations init (some [⟨0, none⟩])) ⟨0, none⟩
        (some [⟨none, none, some "hi"⟩])).currentConversation ≠
      some ⟨0, some [⟨some "hi", some "bot", none⟩]⟩ ∧
    renderChat (setCurrentConversation (getConversations init (some [⟨0, none⟩])) ⟨0, none⟩
        (some [⟨none, none, some "hi"⟩])) = some (.rows [.blank]) := by
  decide

/-- C8, evaluated on the initial state and the API answer `{id: 0}`: after
`addConversation` the selected conversation has no `messages`, rendering the
chat pane raises the TypeError, and so does pressing Enter on the draft
`hello`. -/
theorem addConversation_messages_undefined :
    (addConversation init (some ⟨0, none⟩)).currentConversation = some ⟨0, none⟩ ∧
    messagesPopulated (addConversation init (some ⟨0, none⟩)) = false ∧
    renderChat (addConversation init (some ⟨0, none⟩)) = none ∧
    handleInputKeyPressStart
      (handleInputChange (addConversation init (some ⟨0, none⟩)) "hello") "Enter" = .threw := by
  decide

/-- C10 as stated fails on the state `sample` (conversation 2 selected, one
message shown) and the conversation `{id: 1}`: it is not the case that a failed
fetch leaves the loading flag cleared and a selected conversation that no
longer holds the message list held before. -/
theorem setCurrentConversation_failure_keeps_messages :
    ¬ ((setCurrentConversation sample ⟨1, none⟩ none).loadingChat = false ∧
      (setCurrentConversation sample ⟨1, none⟩ none).currentConversation.bind Conversation.messages ≠
        sample.currentConversation.bind Conversation.messages) := by
  decide

/-- C10, amended: when the fetch fails, `setCurrentConversation` leaves the
loading flag cleared and the selected conversation, with its message list, and
the conversation list as they were. -/
theorem setCurrentConversation_failure (s : State) (c : Conversation) :
    (setCurrentConversation s c none).loadingChat = false ∧
      (setCurrentConversation s c none).currentConversation = s.currentConversation ∧
      (setCurrentConversation s c none).conversations = s.conversations :=
  ⟨rfl, rfl, rfl⟩

/-! ## Deleting a conversation -/

/-- C4: when a conversation with the id is listed, the dialog is confirmed and
`deleteConversation` succeeds, `confirmDelete` leaves the list filtered to the
conversations with another id (none with the id remains, every other one stays,
in the same order), and the selection is null if it had the id and is
unchanged otherwise. -/
theorem confirmDelete_success (s : State) (id : Int) (result : SwalResult)
    (hfound : ∃ c ∈ s.conversations, c.id = id) (hconf : result.isConfirmed = true) :
    (confirmDelete s id result (some ())).conversations =
        s.conversations.filter (fun convo => decide (convo.id ≠ id)) ∧
      (∀ c ∈ (confirmDelete s id result (some ())).conversations, c.id ≠ id) ∧
      (∀ c ∈ s.conversations, c.id ≠ id → c ∈ (confirmDelete s id result (some ())).conversations) ∧
      List.Sublist (confirmDelete s id result (some ())).conversations s.conversations ∧
      (confirmDelete s id result (some ())).currentConversation =
        match s.currentConversation with
        | some cur => if cur.id = id then none else some cur
        | none => none := by
  obtain ⟨found, hf⟩ := find?_isSome_of_mem s.conversations id hfound
  have hlist : (confirmDelete s id result (some ())).conversations =
      s.conversations.filter (fun convo => decide (convo.id ≠ id)) := by
    unfold confirmDelete
    rw [hf]
    cases hcur : s.currentConversation with
    | none => simp [hconf]
    | some cur => by_cases hid : cur.id = id <;> simp [hconf, hid]
  refine ⟨hlist, ?_, ?_, ?_, ?_⟩
  · intro c hc
    rw [hlist] at hc
    simpa using (List.mem_filter.mp hc).2
  · intro c hc hne
    rw [hlist]
    exact List.mem_filter.mpr ⟨hc, by simpa using hne⟩
  · rw [hlist]
    exact List.filter_sublist _
  · unfold confirmDelete
    rw [hf]
    cases hcur : s.currentConversation with
    | none => simp [hconf, hcur]
    | some cur => by_cases hid : cur.id = id <;> simp [hconf, hid, hcur]

theorem confirmDelete_success_witness :
    (confirmDelete sample 2 ⟨true, none⟩ (some ())).conversations =
        sample.conversations.filter (fun convo => decide (convo.id ≠ 2)) ∧
      (∀ c ∈ (confirmDelete sample 2 ⟨true, none⟩ (some ())).conversations, c.id ≠ 2) ∧
      (∀ c ∈ sample.conversations, c.id ≠ 2 →
        c ∈ (confirmDelete sample 2 ⟨true, none⟩ (some ())).conversations) ∧
      List.Sublist (confirmDelete sample 2 ⟨true, none⟩ (some ())).conversations
        sample.conversations ∧
      (confirmDelete sample 2 ⟨true, none⟩ (some ())).currentConversation =
        match sample.currentConversation with
        | some cur => if cur.id = 2 then none else some cur
        | none => none :=
  confirmDelete_success sample 2 ⟨true, none⟩ ⟨⟨2, none⟩, by decide, rfl⟩ rfl

/-- C5: when no listed conversation has the id, or the dialog is not confirmed,
or `deleteConversation` fails, `confirmDelete` leaves the state, with
`conversations` and `currentConversation`, unchanged. -/
theorem confirmDelete_unchanged (s : State) (id : Int) (result : SwalResult)
    (deleted : Option Unit)
    (h : (∀ c ∈ s.conversations, c.id ≠ id) ∨ result.isConfirmed = false ∨ deleted = none) :
    confirmDelete s id result deleted = s ∧
      (confirmDelete s id result deleted).conversations = s.conversations ∧
      (confirmDelete s id result deleted).currentConversation = s.currentConversation := by
  have hs : confirmDelete s id result deleted = s := by
    unfold confirmDelete
    rcases h with h | h | h
    · have hnone : s.conversations.find? (fun convo => decide (convo.id = id)) = none := by
        rw [List.find?_eq_none]
        intro c hc
        simpa using h c hc
      rw [hnone]
    · cases s.conversations.find? (fun convo => decide (convo.id = id)) <;> simp [h]
    · cases s.conversations.find? (fun convo => decide (convo.id = id)) <;> simp [h]
  exact ⟨hs, by rw [hs], by rw [hs]⟩

theorem confirmDelete_unchanged_witness :
    confirmDelete sample 2 ⟨false, some .cancel⟩ (some ()) = sample ∧
      (confirmDelete sample 2 ⟨false, some .cancel⟩ (some ())).conversations =
        sample.conversations ∧
      (confirmDelete sample 2 ⟨false, some .cancel⟩ (some ())).currentConversation =
        sample.currentConversation :=
  confirmDelete_unchanged sample 2 ⟨false, some .cancel⟩ (some ()) (Or.inr (Or.inl rfl))

/-! ## The selection and the list -/

/-- C7 as stated fails: from the initial state, `addConversation` with the API
answer `{id: 5}` followed by the load settling with the empty list reaches a
state whose selected conversation has id 5 while no conversation is listed. -/
theorem reachable_current_not_in_list :
    Reachable (step (step init (.addConversation (some ⟨5, none⟩))) (.getConversations (some []))) ∧
      (step (step init (.addConversation (some ⟨5, none⟩)))
        (.getConversations (some []))).currentConversation = some ⟨5, none⟩ ∧
      (step (step init (.addConversation (some ⟨5, none⟩)))
        (.getConversations (some []))).conversations = [] ∧
      ¬ currentInList (step (step init (.addConversation (some ⟨5, none⟩)))
        (.getConversations (some []))) := by
  refine ⟨.step _ _ (.step _ _ .init rfl) rfl, rfl, rfl, ?_⟩
  simp [currentInList, step, getConversations, addConversation, init]

/-- C7, amended: in every state reached from the initial state by load,
`addConversation`, `setCurrentConversation` applied to a listed conversation,
`handleInputKeyPress`, `confirmDelete` (and `toggleSection`,
`handleInputChange`), each run to completion with any API outcome, where every
load that succeeds does so while no conversation is selected or returns a list
holding a conversation with the selected id, the selected conversation is null
or has the id of a listed conversation. -/
theorem reachableKeepingSelection_currentInList (s : State)
    (h : ReachableKeepingSelection s) : currentInList s := by
  induction h with
  | init => simp [currentInList, init]
  | step s a _ he hk ih => exact currentInList_step s a he hk ih

theorem reachableKeepingSelection_currentInList_witness :
    ReachableKeepingSelection
        (step (step (step (step init (.addConversation (some ⟨5, none⟩)))
          (.getConversations (some [⟨5, none⟩, ⟨6, none⟩])))
          (.setCurrentConversation ⟨6, none⟩ (some [])))
          (.confirmDelete 5 ⟨true, none⟩ (some ()))) ∧
      currentInList
        (step (step (step (step init (.addConversation (some ⟨5, none⟩)))
          (.getConversations (some [⟨5, none⟩, ⟨6, none⟩])))
          (.setCurrentConversation ⟨6, none⟩ (some [])))
          (.confirmDelete 5 ⟨true, none⟩ (some ()))) :=
  ⟨.step _ _ (.step _ _ (.step _ _ (.step _ _ .init rfl rfl) rfl (by decide)) (by decide) rfl)
      rfl rfl,
    reachableKeepingSelection_currentInList _
      (.step _ _ (.step _ _ (.step _ _ (.step _ _ .init rfl rfl) rfl (by decide)) (by decide) rfl)
        rfl rfl)⟩

end Dashboard
